import Mathlib

/-!
Shallow embedding of the usage-metering reconciliation pipeline of the
aws-marketplace-integration repository.

Source files embedded here:
- helpers/metering-processor-helper.ts (validation, correlation keys, the
  DynamoDB success and failure updates of the Billing Reporter, chunking and
  the throttling retry wrapper sendBatchWithRetry);
- lambda/metering-processor-job.ts (the Billing Reporter handler);
- the hourly job helper (Pending-Record Scanner: markRecordsAsProcessing,
  markRecordsAsFailed, sendRecordsToSQS, processBatch,
  cleanupStuckProcessingRecords) and the scheduled handler that calls it.

Modelling conventions:
- DynamoDB items are the DdbItem structure; the attributes touched by the
  embedded UpdateExpressions are explicit fields.  An update keyed on
  (customerIdentifier, create_timestamp) is modelled as a map over the item
  list that rewrites the items with a matching key; the
  attribute_exists(customerIdentifier) condition of the Reporter updates is
  a no-op exactly when no item has the key, which the map model reproduces.
- JavaScript truthiness of the validated fields is modelled explicitly:
  a missing value and the empty string are falsy for strings, a missing
  value and 0 are falsy for numbers.
- JavaScript numbers of the records are modelled as Int; timestamps are
  Int epoch milliseconds (Date.now() values are passed in as parameters).
- External effects are parameters: the per-attempt outcome of the
  marketplace client is a function Nat -> SendOutcome, the per-record
  outcome of an SQS send is a predicate, and a query failure is a Bool.
  Store updates themselves are modelled as reliable; the swallowed
  per-update errors of Promise.allSettled do not change the state reached
  on the paths the claims are about.
-/

/-- One item of the AWSMarketplaceMeteringRecords DynamoDB table.  Fields
mirror the attributes read or written by the embedded code; optional
attributes that an item may lack are Option valued. -/
structure DdbItem where
  customerIdentifier : String
  create_timestamp : Int
  metering_pending : String
  dimension : Option String
  quantity : Option Int
  status : Option String
  processing_started : Option Int
  processed_timestamp : Option Int
  error_message : Option String
  last_failed : Option Int
  last_attempt : Option Int
  retry_count : Int
  deriving Repr, DecidableEq

/-- The originalRecord carried inside a queue message body; the embedded
updates only read its two key attributes. -/
structure OriginalRecord where
  customerIdentifier : String
  create_timestamp : Int
  deriving Repr, DecidableEq

/-- Parsed SQS message body (interface MeteringMessageBody).  The fields
checked by validateMeteringRecord are Option valued because the parsed
JSON may lack them; a non-number quantity is modelled as none. -/
structure MeteringMessageBody where
  customerIdentifier : Option String
  timestamp : Option Int
  dimension : Option String
  quantity : Option Int
  originalRecord : OriginalRecord
  deriving Repr, DecidableEq

/-- JavaScript truthiness of an optional string: undefined and the empty
string are falsy. -/
def truthyStr : Option String → Bool
  | none => false
  | some s => s != ""

/-- JavaScript truthiness of an optional number: undefined and 0 are
falsy. -/
def truthyNum : Option Int → Bool
  | none => false
  | some n => n != 0

/-- validateMeteringRecord from helpers/metering-processor-helper.ts: the
checks run in source order and throw the first failing message; the throw
is modelled as Except.error. -/
def validateMeteringRecord (record : MeteringMessageBody) : Except String Unit :=
  if truthyStr record.customerIdentifier then
    if truthyNum record.timestamp then
      if truthyStr record.dimension then
        match record.quantity with
        | some q => if q ≤ 0 then Except.error "quantity must be a positive number" else Except.ok ()
        | none => Except.error "quantity must be a positive number"
      else Except.error "dimension is required"
    else Except.error "timestamp is required"
  else Except.error "customerIdentifier is required"

/-- Whether validation succeeds, as a Bool. -/
def validatePasses (record : MeteringMessageBody) : Bool :=
  match validateMeteringRecord record with
  | Except.ok _ => true
  | Except.error _ => false

/-- The JavaScript expression errorMessage or-else the literal
Unknown error (the empty string is falsy). -/
def orUnknown (errorMessage : String) : String :=
  if errorMessage = "" then "Unknown error" else errorMessage

/-- Per-item effect of the updateDdbFailure UpdateExpression of the
Reporter: SET status, error_message, last_attempt and ADD retry_count 1.
metering_pending is not mentioned by the expression. -/
def updateDdbFailureItem (errorMessage : String) (now : Int) (it : DdbItem) : DdbItem :=
  { it with
    status := some "failed"
    error_message := some (orUnknown errorMessage)
    last_attempt := some now
    retry_count := it.retry_count + 1 }

/-- Per-item effect of the updateDdbSuccess UpdateExpression of the
Reporter: SET metering_pending false, processed_timestamp, status
completed. -/
def updateDdbSuccessItem (now : Int) (it : DdbItem) : DdbItem :=
  { it with
    metering_pending := "false"
    processed_timestamp := some now
    status := some "completed" }

/-- Per-item effect of the conditional claim of markRecordsAsProcessing:
the update fires only when metering_pending is still true; a
ConditionalCheckFailedException leaves the item unchanged and is swallowed
by the source. -/
def markProcessingItem (now : Int) (it : DdbItem) : DdbItem :=
  if it.metering_pending = "true" then
    { it with metering_pending := "processing", processing_started := some now }
  else it

/-- Whether the conditional claim of markRecordsAsProcessing succeeds on
an item (the ConditionExpression metering_pending = true). -/
def claimSucceeds (it : DdbItem) : Bool :=
  it.metering_pending == "true"

/-- Per-item effect of the markRecordsAsFailed UpdateExpression of the
Scanner rollback: SET metering_pending true, status failed, error_message,
last_failed and ADD retry_count 1.  processing_started is not mentioned by
the expression. -/
def markFailedItem (error : String) (now : Int) (it : DdbItem) : DdbItem :=
  { it with
    metering_pending := "true"
    status := some "failed"
    error_message := some error
    last_failed := some now
    retry_count := it.retry_count + 1 }

/-- Per-item effect of the reset of cleanupStuckProcessingRecords: SET
metering_pending true, status timeout_reset and REMOVE
processing_started. -/
def resetStuckItem (it : DdbItem) : DdbItem :=
  { it with
    metering_pending := "true"
    status := some "timeout_reset"
    processing_started := none }

/-- A DynamoDB update keyed on (customerIdentifier, create_timestamp),
applied to every stored item with that key. -/
def updateByKey (c : String) (t : Int) (f : DdbItem → DdbItem) (st : List DdbItem) : List DdbItem :=
  st.map (fun it =>
    if it.customerIdentifier = c ∧ it.create_timestamp = t then f it else it)

/-- Store-level updateDdbFailure of the Reporter, keyed by the
originalRecord of the message body. -/
def updateDdbFailure (errorMessage : String) (now : Int) (record : MeteringMessageBody)
    (st : List DdbItem) : List DdbItem :=
  updateByKey record.originalRecord.customerIdentifier record.originalRecord.create_timestamp
    (updateDdbFailureItem errorMessage now) st

/-- Store-level updateDdbSuccess of the Reporter. -/
def updateDdbSuccess (now : Int) (record : MeteringMessageBody)
    (st : List DdbItem) : List DdbItem :=
  updateByKey record.originalRecord.customerIdentifier record.originalRecord.create_timestamp
    (updateDdbSuccessItem now) st

/-- Message body built by sendRecordsToSQS from a fetched item; optional
attributes that are undefined are dropped by JSON.stringify and so parse
back as none. -/
def toMessageBody (r : DdbItem) : MeteringMessageBody :=
  { customerIdentifier := some r.customerIdentifier
    timestamp := some r.create_timestamp
    dimension := r.dimension
    quantity := r.quantity
    originalRecord :=
      { customerIdentifier := r.customerIdentifier
        create_timestamp := r.create_timestamp } }

/-- One SQS FIFO message as built by sendRecordsToSQS: the group id is the
customerIdentifier and the deduplication id appends the send time as a
fresh nonce. -/
structure QueueMessage where
  body : MeteringMessageBody
  messageGroupId : String
  messageDeduplicationId : String
  deriving Repr, DecidableEq

/-- The queue message sendRecordsToSQS builds for one record at time
now. -/
def toQueueMessage (now : Int) (r : DdbItem) : QueueMessage :=
  { body := toMessageBody r
    messageGroupId := r.customerIdentifier
    messageDeduplicationId :=
      r.customerIdentifier ++ "-" ++ toString r.create_timestamp ++ "-" ++ toString now }

/-- markRecordsAsProcessing: one conditional claim per fetched record,
keyed on the record.  Promise.allSettled swallows per-record condition
failures, so the store effect is the sequence of conditional updates. -/
def markRecordsAsProcessing (now : Int) (records : List DdbItem)
    (st : List DdbItem) : List DdbItem :=
  records.foldl
    (fun s r => updateByKey r.customerIdentifier r.create_timestamp (markProcessingItem now) s)
    st

/-- markRecordsAsFailed: one unconditional failure update per record of
the batch; update errors are swallowed. -/
def markRecordsAsFailed (error : String) (now : Int) (records : List DdbItem)
    (st : List DdbItem) : List DdbItem :=
  records.foldl
    (fun s r => updateByKey r.customerIdentifier r.create_timestamp (markFailedItem error now) s)
    st

/-- sendRecordsToSQS: each record of the batch is sent as its own message;
sendOk gives the per-record outcome of the SQS client.  The messages whose
sends resolved are delivered, and Promise.all rejects (the Bool is false)
as soon as any send fails. -/
def sendRecordsToSQS (sendOk : DdbItem → Bool) (now : Int)
    (records : List DdbItem) : List QueueMessage × Bool :=
  ((records.filter sendOk).map (toQueueMessage now), records.all sendOk)

/-- Aggregate counts returned by processBatch. -/
structure BatchResult where
  successCount : Nat
  errorCount : Nat
  errors : List String
  deriving Repr, DecidableEq

/-- processBatch of the Scanner: mark the whole fetched batch as
processing, send the whole batch to SQS, and on a send failure mark the
whole batch as failed; the catch keeps the function from throwing.  The
result carries the updated store, the delivered queue messages and the
counts.  sqsError is the text of the error thrown by the failed send; now
and failNow are the Date.now() values of the claim and of the rollback. -/
def processBatch (sendOk : DdbItem → Bool) (sqsError : String) (now failNow : Int)
    (st : List DdbItem) (records : List DdbItem) :
    List DdbItem × List QueueMessage × BatchResult :=
  if records.isEmpty then (st, [], ⟨0, 0, []⟩)
  else
    let st1 := markRecordsAsProcessing now records st
    let sent := sendRecordsToSQS sendOk now records
    if sent.2 then
      (st1, sent.1, ⟨records.length, 0, []⟩)
    else
      let msg := "Failed to process batch: " ++ sqsError
      (markRecordsAsFailed msg failNow records st1, sent.1, ⟨0, records.length, [msg]⟩)

/-- PROCESSING_TIMEOUT of cleanupStuckProcessingRecords: 30 minutes in
milliseconds. -/
def PROCESSING_TIMEOUT : Int := 30 * 60 * 1000

/-- The query filter of cleanupStuckProcessingRecords: metering_pending is
processing and processing_started is strictly below the cutoff; a missing
processing_started attribute fails the DynamoDB comparison. -/
def isStuck (now : Int) (it : DdbItem) : Bool :=
  it.metering_pending == "processing" &&
    (match it.processing_started with
     | some t => decide (t < now - PROCESSING_TIMEOUT)
     | none => false)

/-- cleanupStuckProcessingRecords: when the query succeeds, every stuck
record found is reset by key; every error of the sweep is caught and
swallowed (queryOk false models a thrown query), so the function always
returns a store and the Scanner run proceeds. -/
def cleanupStuckProcessingRecords (queryOk : Bool) (now : Int)
    (st : List DdbItem) : List DdbItem :=
  if queryOk then
    (st.filter (isStuck now)).foldl
      (fun s r => updateByKey r.customerIdentifier r.create_timestamp resetStuckItem s)
      st
  else st

/-- MAX_RETRIES of the throttling retry wrapper. -/
def MAX_RETRIES : Nat := 3

/-- RETRY_DELAY_MS, the base retry delay in milliseconds. -/
def RETRY_DELAY_MS : Nat := 1000

/-- A usage record of the marketplace batch request (UsageRecord of the
SDK); the Timestamp is epoch milliseconds. -/
structure Usage where
  CustomerIdentifier : String
  Dimension : String
  Quantity : Option Int
  Timestamp : Int
  deriving Repr, DecidableEq

/-- One entry of UnprocessedRecords in a BatchMeterUsage response. -/
structure UnprocessedRecordEntry where
  UsageRecord : Option Usage
  ErrorCode : Option String
  ErrorMessage : Option String
  deriving Repr, DecidableEq

/-- A BatchMeterUsage response. -/
structure BatchMeterUsageResponse where
  Results : List Usage
  UnprocessedRecords : List UnprocessedRecordEntry
  deriving Repr, DecidableEq

/-- Outcome of one send of the marketplace client: a response or a thrown
error with its name. -/
inductive SendOutcome where
  | ok : BatchMeterUsageResponse → SendOutcome
  | err : String → SendOutcome
  deriving Repr, DecidableEq

/-- sendBatchWithRetry: outcomes gives the client outcome of each attempt
(the same batch is resubmitted, so only the attempt index varies).  The
returned list collects the sleeps performed, in order: the sleep
RETRY_DELAY_MS * 2 ^ attempt runs after the failed attempt and before the
retry carrying attempt + 1.  Any other error, and a throttle once attempt
reaches MAX_RETRIES, is rethrown. -/
def sendBatchWithRetry (outcomes : Nat → SendOutcome) (attempt : Nat) :
    Except String BatchMeterUsageResponse × List Nat :=
  match outcomes attempt with
  | SendOutcome.ok r => (Except.ok r, [])
  | SendOutcome.err name =>
    if h : name = "ThrottlingException" ∧ attempt < MAX_RETRIES then
      let rest := sendBatchWithRetry outcomes (attempt + 1)
      (rest.1, RETRY_DELAY_MS * 2 ^ attempt :: rest.2)
    else
      (Except.error name, [])
termination_by MAX_RETRIES - attempt
decreasing_by
  exact Nat.sub_succ_lt_self _ _ h.2

/-- correlationKey of a usage record; toISOString is modelled by toString
of the epoch timestamp, which is likewise injective in the timestamp. -/
def correlationKey (u : Usage) : String :=
  u.CustomerIdentifier ++ "::" ++ u.Dimension ++ "::" ++ toString u.Timestamp

/-- The UsageRecord the Reporter builds from a validated message body; the
getD defaults stand for the undefined fields a failed validation would
have left, and are never reached on validated bodies. -/
def toUsage (body : MeteringMessageBody) : Usage :=
  { CustomerIdentifier := body.customerIdentifier.getD ""
    Dimension := body.dimension.getD ""
    Quantity := body.quantity
    Timestamp := body.timestamp.getD 0 }

/-- MAX_BATCH of the Reporter handler, the marketplace batch limit. -/
def MAX_BATCH : Nat := 25

/-- chunk from helpers/metering-processor-helper.ts: consecutive slices of
the given size.  The size = 0 guard returns the empty list where the
source loop would not terminate; every caller passes MAX_BATCH. -/
def chunk {α : Type} (arr : List α) (size : Nat) : List (List α) :=
  if h : arr.isEmpty ∨ size = 0 then []
  else arr.take size :: chunk (arr.drop size) size
termination_by arr.length
decreasing_by
  rw [List.length_drop]
  have h1 : arr ≠ [] := by
    intro he
    exact h (Or.inl (by simp [he]))
  have h2 : size ≠ 0 := fun hs => h (Or.inr hs)
  have h3 : 0 < arr.length := List.length_pos.mpr h1
  omega

/-- An enriched usage of the Reporter: correlation key, parsed body and
the usage record sent onward. -/
structure EnrichedUsage where
  key : String
  body : MeteringMessageBody
  usage : Usage
  deriving Repr, DecidableEq

/-- Phase 1 of the Reporter handler, the validated messages in order; a
message that fails validation is dropped from the batch sent onward. -/
def enrichMessages (msgs : List MeteringMessageBody) : List EnrichedUsage :=
  msgs.filterMap (fun m =>
    match validateMeteringRecord m with
    | Except.ok _ =>
      some { key := correlationKey (toUsage m), body := m, usage := toUsage m }
    | Except.error _ => none)

/-- Phase 1 of the Reporter handler, the messages that failed validation
together with the thrown message, in order. -/
def preValidationFailures (msgs : List MeteringMessageBody) :
    List (MeteringMessageBody × String) :=
  msgs.filterMap (fun m =>
    match validateMeteringRecord m with
    | Except.ok _ => none
    | Except.error e => some (m, e))

/-- Phase 2 of the Reporter handler: every pre-validation failure is
marked failed in DynamoDB before any marketplace call. -/
def markPreValidationFailures (now : Int) (msgs : List MeteringMessageBody)
    (st : List DdbItem) : List DdbItem :=
  (preValidationFailures msgs).foldl (fun s p => updateDdbFailure p.2 now p.1 s) st

/-- JavaScript Map.set on an association list: an existing key keeps its
position with the value replaced, a new key is appended. -/
def mapSet (m : List (String × Option String × Option String)) (k : String)
    (v : Option String × Option String) : List (String × Option String × Option String) :=
  if (m.lookup k).isSome then
    m.map (fun p => if p.1 = k then (k, v) else p)
  else m ++ [(k, v)]

/-- The failures map the Reporter builds from UnprocessedRecords; an entry
without a UsageRecord is skipped with a warning. -/
def buildFailures (resp : BatchMeterUsageResponse) :
    List (String × Option String × Option String) :=
  resp.UnprocessedRecords.foldl
    (fun m f =>
      match f.UsageRecord with
      | some u => mapSet m (correlationKey u) (f.ErrorCode, f.ErrorMessage)
      | none => m)
    []

/-- The failure text the Reporter stores for an unprocessed record. -/
def failureText (code message : Option String) : String :=
  code.getD "Error" ++ ": " ++ message.getD "Unprocessed"

/-- Result of a Reporter invocation: the reconciled store, the usage
batches submitted to the marketplace and the success and failure
counts. -/
structure ReporterResult where
  store : List DdbItem
  submitted : List (List Usage)
  totalSuccess : Nat
  totalFailed : Nat
  deriving Repr, DecidableEq

/-- The Reporter handler of lambda/metering-processor-job.ts over already
parsed message bodies.  billing resolves each submitted batch to its
BatchMeterUsage response (the throttling retry wrapper around the call is
modelled separately as sendBatchWithRetry); now stands for the Date.now()
values of the store updates.  Per-item store update errors are caught and
logged by the source and the store itself is modelled reliable. -/
def reporterHandler (billing : List Usage → BatchMeterUsageResponse) (now : Int)
    (st : List DdbItem) (msgs : List MeteringMessageBody) : ReporterResult :=
  let enriched := enrichMessages msgs
  let st1 := markPreValidationFailures now msgs st
  if enriched.isEmpty then ⟨st1, [], 0, 0⟩
  else
    let groups := chunk enriched MAX_BATCH
    let final := groups.foldl
      (fun (acc : List DdbItem × Nat × Nat) group =>
        let resp := billing (group.map EnrichedUsage.usage)
        let failures := buildFailures resp
        group.foldl
          (fun acc2 item =>
            match failures.lookup item.key with
            | some fail =>
              (updateDdbFailure (failureText fail.1 fail.2) now item.body acc2.1,
                acc2.2.1, acc2.2.2 + 1)
            | none =>
              (updateDdbSuccess now item.body acc2.1, acc2.2.1 + 1, acc2.2.2))
          acc)
      (st1, 0, 0)
    ⟨final.1, groups.map (fun g => g.map EnrichedUsage.usage), final.2.1, final.2.2⟩

/-- The lifecycle store updates of the pipeline, one constructor per
UpdateExpression: the Scanner claim, the Scanner rollback, the Reclaimer
reset and the two Reporter reconciliations. -/
inductive StoreOp where
  | scannerClaim (now : Int)
  | scannerRollback (error : String) (now : Int)
  | reclaimReset
  | reporterSuccess (now : Int)
  | reporterFailure (error : String) (now : Int)
  deriving Repr, DecidableEq

/-- Per-item effect of each pipeline store update. -/
def applyStoreOp : StoreOp → DdbItem → DdbItem
  | StoreOp.scannerClaim now, it => markProcessingItem now it
  | StoreOp.scannerRollback e now, it => markFailedItem e now it
  | StoreOp.reclaimReset, it => resetStuckItem it
  | StoreOp.reporterSuccess now, it => updateDdbSuccessItem now it
  | StoreOp.reporterFailure e now, it => updateDdbFailureItem e now it

/-- Per-item step of the phase-2 failure fold of the Reporter: one keyed
failure update per invalid message, in message order. -/
def failStep (now : Int) (y : DdbItem) (p : MeteringMessageBody × String) : DdbItem :=
  if y.customerIdentifier = p.1.originalRecord.customerIdentifier ∧
      y.create_timestamp = p.1.originalRecord.create_timestamp then
    updateDdbFailureItem p.2 now y
  else y

/-- A well-formed usage message whose epoch timestamp is 0. -/
def zeroTsMsg : MeteringMessageBody :=
  { customerIdentifier := some "cust-1"
    timestamp := some 0
    dimension := some "api-calls"
    quantity := some 5
    originalRecord := { customerIdentifier := "cust-1", create_timestamp := 0 } }

/-- A client that throttles every attempt. -/
def allThrottled : Nat → SendOutcome := fun _ => SendOutcome.err "ThrottlingException"

/-- A client that rejects every attempt with a non-throttling error. -/
def alwaysDenied : Nat → SendOutcome := fun _ => SendOutcome.err "AccessDenied"

/-- A pending usage record as stored by the pipeline. -/
def sampleItem : DdbItem :=
  { customerIdentifier := "cust-1"
    create_timestamp := 1000
    metering_pending := "true"
    dimension := some "api-calls"
    quantity := some 5
    status := some "pending"
    processing_started := none
    processed_timestamp := none
    error_message := none
    last_failed := none
    last_attempt := none
    retry_count := 0 }

/-- A record already claimed by another worker. -/
def stuckItem : DdbItem :=
  { sampleItem with
    metering_pending := "processing"
    status := some "processing"
    processing_started := some 0 }

/-- A message that fails validation for a missing dimension. -/
def badMsg : MeteringMessageBody :=
  { customerIdentifier := some "cust-1"
    timestamp := some 1000
    dimension := none
    quantity := some 5
    originalRecord := { customerIdentifier := "cust-1", create_timestamp := 1000 } }

/-- A message that passes validation. -/
def goodMsg : MeteringMessageBody :=
  { customerIdentifier := some "cust-2"
    timestamp := some 2000
    dimension := some "api-calls"
    quantity := some 3
    originalRecord := { customerIdentifier := "cust-2", create_timestamp := 2000 } }

/-- A fold of per-element maps over a store is the map of the per-item
folds: the store updates of the pipeline all have this shape. -/
theorem foldl_map_eq_map_foldl {α β : Type} (g : α → β → β) (L : List α) (st : List β) :
    L.foldl (fun s a => s.map (g a)) st = st.map (fun b => L.foldl (fun x a => g a x) b) := by
  induction L generalizing st with
  | nil => simp
  | cons a L ih =>
    simp only [List.foldl_cons]
    rw [ih, List.map_map]
    rfl

/-- Rejoining the chunks of a list returns the list. -/
theorem chunk_flatten {α : Type} (size : Nat) (hs : 0 < size) (arr : List α) :
    (chunk arr size).flatten = arr := by
  have key : ∀ n (l : List α), l.length ≤ n → (chunk l size).flatten = l := by
    intro n
    induction n with
    | zero =>
      intro l hl
      have : l = [] := List.eq_nil_of_length_eq_zero (Nat.le_zero.mp hl)
      subst this
      rw [chunk]
      simp
    | succ n ih =>
      intro l hl
      by_cases hnil : l = []
      · subst hnil
        rw [chunk]
        simp
      · rw [chunk]
        have hcond : ¬ (l.isEmpty ∨ size = 0) := by
          simp [List.isEmpty_iff, hnil]
          omega
        rw [dif_neg hcond]
        rw [List.flatten_cons]
        have hlen : (l.drop size).length ≤ n := by
          rw [List.length_drop]
          have : 0 < l.length := List.length_pos.mpr hnil
          omega
        rw [ih (l.drop size) hlen]
        exact List.take_append_drop size l
  exact key arr.length arr le_rfl

/-- Mapping over a flattened list of chunks. -/
theorem map_flatten_eq {α β : Type} (f : α → β) (L : List (List α)) :
    (L.map (List.map f)).flatten = L.flatten.map f := by
  induction L with
  | nil => rfl
  | cons g L ih =>
    simp only [List.map_cons, List.flatten_cons, List.map_append, ih]

/-- The usages of the enriched messages are exactly the usages of the
messages that pass validation, in order. -/
theorem enrich_usages (msgs : List MeteringMessageBody) :
    (enrichMessages msgs).map EnrichedUsage.usage
      = (msgs.filter (fun m => validatePasses m)).map toUsage := by
  induction msgs with
  | nil => rfl
  | cons m msgs ih =>
    simp only [enrichMessages, List.filterMap_cons, List.filter_cons]
    cases hv : validateMeteringRecord m with
    | ok u =>
      have : validatePasses m = true := by simp [validatePasses, hv]
      simp only [this, if_pos]
      simp only [List.map_cons, List.map_cons]
      rw [← ih]
      rfl
    | error e =>
      have : validatePasses m = false := by simp [validatePasses, hv]
      simp only [this]
      simpa [enrichMessages] using ih

/-- The enriched messages are empty exactly when no message passes
validation. -/
theorem enrich_isEmpty (msgs : List MeteringMessageBody) :
    (enrichMessages msgs).isEmpty = true →
      msgs.filter (fun m => validatePasses m) = [] := by
  intro h
  have h2 : enrichMessages msgs = [] := List.isEmpty_iff.mp h
  have h3 := enrich_usages msgs
  rw [h2] at h3
  have h4 := congrArg List.length h3
  simp only [List.map_nil, List.length_nil, List.length_map] at h4
  exact List.eq_nil_of_length_eq_zero h4.symm

/-- The conditional claim never rewrites the key attributes. -/
theorem markProcessingItem_key (now : Int) (it : DdbItem) :
    (markProcessingItem now it).customerIdentifier = it.customerIdentifier ∧
      (markProcessingItem now it).create_timestamp = it.create_timestamp := by
  unfold markProcessingItem
  split <;> exact ⟨rfl, rfl⟩

/-- The rollback update never rewrites the key attributes. -/
theorem markFailedItem_key (e : String) (now : Int) (it : DdbItem) :
    (markFailedItem e now it).customerIdentifier = it.customerIdentifier ∧
      (markFailedItem e now it).create_timestamp = it.create_timestamp :=
  ⟨rfl, rfl⟩

/-- The reclaim reset never rewrites the key attributes. -/
theorem resetStuckItem_key (it : DdbItem) :
    (resetStuckItem it).customerIdentifier = it.customerIdentifier ∧
      (resetStuckItem it).create_timestamp = it.create_timestamp :=
  ⟨rfl, rfl⟩

/-- The Reporter failure update never rewrites the key attributes. -/
theorem updateDdbFailureItem_key (e : String) (now : Int) (it : DdbItem) :
    (updateDdbFailureItem e now it).customerIdentifier = it.customerIdentifier ∧
      (updateDdbFailureItem e now it).create_timestamp = it.create_timestamp :=
  ⟨rfl, rfl⟩

/-- A fold of keyed conditional updates over a list of records with
pairwise distinct keys behaves on one item as a single update: the
per-item function fires exactly once when some record of the list carries
the key of the item, and not at all otherwise. -/
theorem keyed_foldl (f : DdbItem → DdbItem)
    (hf : ∀ x, (f x).customerIdentifier = x.customerIdentifier ∧
        (f x).create_timestamp = x.create_timestamp)
    (L : List DdbItem) (x : DdbItem)
    (hnd : (L.map (fun r => (r.customerIdentifier, r.create_timestamp))).Nodup) :
    ((∃ r ∈ L, x.customerIdentifier = r.customerIdentifier ∧
          x.create_timestamp = r.create_timestamp) →
        L.foldl (fun y r =>
          if y.customerIdentifier = r.customerIdentifier ∧
              y.create_timestamp = r.create_timestamp then f y else y) x = f x) ∧
    ((¬ ∃ r ∈ L, x.customerIdentifier = r.customerIdentifier ∧
          x.create_timestamp = r.create_timestamp) →
        L.foldl (fun y r =>
          if y.customerIdentifier = r.customerIdentifier ∧
              y.create_timestamp = r.create_timestamp then f y else y) x = x) := by
  induction L generalizing x with
  | nil =>
    constructor
    · intro h
      simp at h
    · intro _
      rfl
  | cons r L ih =>
    rw [List.map_cons, List.nodup_cons] at hnd
    obtain ⟨hr_not, hndL⟩ := hnd
    by_cases hxr : x.customerIdentifier = r.customerIdentifier ∧
        x.create_timestamp = r.create_timestamp
    · have hstep : (if x.customerIdentifier = r.customerIdentifier ∧
          x.create_timestamp = r.create_timestamp then f x else x) = f x := if_pos hxr
      have hmiss : ¬ ∃ q ∈ L, (f x).customerIdentifier = q.customerIdentifier ∧
          (f x).create_timestamp = q.create_timestamp := by
        rintro ⟨q, hq, hk1, hk2⟩
        apply hr_not
        have e1 : q.customerIdentifier = r.customerIdentifier := by
          rw [← hk1, (hf x).1, hxr.1]
        have e2 : q.create_timestamp = r.create_timestamp := by
          rw [← hk2, (hf x).2, hxr.2]
        rw [← e1, ← e2]
        exact List.mem_map_of_mem _ hq
      have hrest := (ih (f x) hndL).2 hmiss
      constructor
      · intro _
        rw [List.foldl_cons, hstep, hrest]
      · intro hnone
        exact absurd ⟨r, List.mem_cons_self r L, hxr⟩ hnone
    · have hstep : (if x.customerIdentifier = r.customerIdentifier ∧
          x.create_timestamp = r.create_timestamp then f x else x) = x := if_neg hxr
      constructor
      · rintro ⟨q, hq, hk⟩
        rcases List.mem_cons.mp hq with hq1 | hq2
        · exact absurd (hq1 ▸ hk) hxr
        · rw [List.foldl_cons, hstep]
          exact (ih x hndL).1 ⟨q, hq2, hk⟩
      · intro hnone
        rw [List.foldl_cons, hstep]
        refine (ih x hndL).2 ?_
        rintro ⟨q, hq, hk⟩
        exact hnone ⟨q, List.mem_cons_of_mem r hq, hk⟩


/-- Effect of the phase-2 failure fold on one item: keys are preserved,
retry_count is monotone, the status can only move to failed, and an item
whose key is carried by some invalid message ends failed with retry_count
strictly increased. -/
theorem failFold_props (now : Int) (ps : List (MeteringMessageBody × String)) (x : DdbItem) :
    (ps.foldl (failStep now) x).customerIdentifier = x.customerIdentifier ∧
    (ps.foldl (failStep now) x).create_timestamp = x.create_timestamp ∧
    x.retry_count ≤ (ps.foldl (failStep now) x).retry_count ∧
    ((ps.foldl (failStep now) x).status = x.status ∨
        (ps.foldl (failStep now) x).status = some "failed") ∧
    ((∃ p ∈ ps, x.customerIdentifier = p.1.originalRecord.customerIdentifier ∧
          x.create_timestamp = p.1.originalRecord.create_timestamp) →
        (ps.foldl (failStep now) x).status = some "failed" ∧
          x.retry_count + 1 ≤ (ps.foldl (failStep now) x).retry_count) := by
  induction ps generalizing x with
  | nil =>
    refine ⟨rfl, rfl, le_refl _, Or.inl rfl, ?_⟩
    intro h
    simp at h
  | cons p ps ih =>
    rw [List.foldl_cons]
    have hkey : (failStep now x p).customerIdentifier = x.customerIdentifier ∧
        (failStep now x p).create_timestamp = x.create_timestamp := by
      unfold failStep
      split <;> exact ⟨rfl, rfl⟩
    have hretry : x.retry_count ≤ (failStep now x p).retry_count := by
      unfold failStep
      split
      · exact Int.le.intro 1 rfl
      · exact le_refl _
    have hstat : (failStep now x p).status = x.status ∨
        (failStep now x p).status = some "failed" := by
      unfold failStep
      split
      · exact Or.inr rfl
      · exact Or.inl rfl
    obtain ⟨ih1, ih2, ih3, ih4, ih5⟩ := ih (failStep now x p)
    refine ⟨ih1.trans hkey.1, ih2.trans hkey.2, hretry.trans ih3, ?_, ?_⟩
    · rcases ih4 with h | h
      · rcases hstat with h2 | h2
        · exact Or.inl (h.trans h2)
        · exact Or.inr (h.trans h2)
      · exact Or.inr h
    · rintro ⟨q, hq, hk⟩
      rcases List.mem_cons.mp hq with hq1 | hq2
      · subst hq1
        have hfired : failStep now x q = updateDdbFailureItem q.2 now x := if_pos hk
        refine ⟨?_, ?_⟩
        · rcases ih4 with h | h
          · rw [h, hfired]
            rfl
          · exact h
        · have : x.retry_count + 1 ≤ (failStep now x q).retry_count := by
            rw [hfired]
            exact le_refl _
          exact this.trans ih3
      · have hk2 : (failStep now x p).customerIdentifier =
            q.1.originalRecord.customerIdentifier ∧
            (failStep now x p).create_timestamp = q.1.originalRecord.create_timestamp := by
          rw [hkey.1, hkey.2]
          exact hk
        obtain ⟨hs, hr⟩ := ih5 ⟨q, hq2, hk2⟩
        exact ⟨hs, by omega⟩

/-- Each pipeline store update leaves retry_count unchanged or raises it
by exactly one. -/
theorem applyStoreOp_retry (o : StoreOp) (x : DdbItem) :
    (applyStoreOp o x).retry_count = x.retry_count ∨
      (applyStoreOp o x).retry_count = x.retry_count + 1 := by
  cases o with
  | scannerClaim now =>
    simp only [applyStoreOp, markProcessingItem]
    split
    · exact Or.inl rfl
    · exact Or.inl rfl
  | scannerRollback e now => exact Or.inr rfl
  | reclaimReset => exact Or.inl rfl
  | reporterSuccess now => exact Or.inl rfl
  | reporterFailure e now => exact Or.inr rfl

/-- C8: across every sequence of pipeline store updates (Scanner claim,
Scanner rollback, Reclaimer reset, Reporter success, Reporter failure) the
retry_count of a record never decreases, and each single update either
keeps it or raises it by exactly one. -/
theorem c8_retry_count_monotone (ops : List StoreOp) (it : DdbItem) :
    it.retry_count ≤ (ops.foldl (fun x o => applyStoreOp o x) it).retry_count ∧
    ∀ (o : StoreOp) (x : DdbItem),
      (applyStoreOp o x).retry_count = x.retry_count ∨
        (applyStoreOp o x).retry_count = x.retry_count + 1 := by
  constructor
  · induction ops generalizing it with
    | nil => exact le_refl _
    | cons o ops ih =>
      rw [List.foldl_cons]
      refine le_trans ?_ (ih (applyStoreOp o it))
      rcases applyStoreOp_retry o it with h | h <;> omega
  · exact applyStoreOp_retry

/-- C4: the failure update of the Reporter sets status to failed, adds
exactly one to retry_count, records the error diagnostics, and does not
touch metering_pending, so the Reporter never resets an unprocessed record
back to pending. -/
theorem c4_reporter_failure_frame (err : String) (now : Int) (it : DdbItem) :
    (updateDdbFailureItem err now it).status = some "failed" ∧
    (updateDdbFailureItem err now it).retry_count = it.retry_count + 1 ∧
    (updateDdbFailureItem err now it).error_message = some (orUnknown err) ∧
    (updateDdbFailureItem err now it).last_attempt = some now ∧
    (updateDdbFailureItem err now it).metering_pending = it.metering_pending :=
  ⟨rfl, rfl, rfl, rfl, rfl⟩

/-- C10: a record whose timestamp parses as the number 0 is rejected by
validateMeteringRecord with the timestamp-is-required error, because 0 is
falsy in JavaScript; the customerIdentifier check, which runs first, must
pass for this error to be the one thrown. -/
theorem c10_zero_timestamp_rejected (record : MeteringMessageBody)
    (hc : truthyStr record.customerIdentifier = true)
    (ht : record.timestamp = some 0) :
    validateMeteringRecord record = Except.error "timestamp is required" := by
  unfold validateMeteringRecord
  simp [hc, ht, truthyNum]


/-- Witness for C10 at a concrete record. -/
theorem c10_zero_timestamp_rejected_witness :
    truthyStr zeroTsMsg.customerIdentifier = true ∧
      validateMeteringRecord zeroTsMsg = Except.error "timestamp is required" :=
  ⟨by decide, c10_zero_timestamp_rejected zeroTsMsg (by decide) rfl⟩



/-- C7: the retry controller retries only throttling-class errors: a
successful send returns at once with no sleep; a non-throttling error
rethrows at once with no sleep; a throttling error once attempt has
reached MAX_RETRIES rethrows at once; and a throttling error below the
bound sleeps RETRY_DELAY_MS * 2 ^ attempt and continues as the retry with
attempt + 1, so the delay before retry number n (zero-indexed, the call
carrying attempt = n + 1) is base * 2 ^ n. -/
theorem c7_retry_only_throttling (outcomes : Nat → SendOutcome) (attempt : Nat)
    (name : String) (r : BatchMeterUsageResponse) :
    (outcomes attempt = SendOutcome.ok r →
        sendBatchWithRetry outcomes attempt = (Except.ok r, [])) ∧
    (outcomes attempt = SendOutcome.err name → name ≠ "ThrottlingException" →
        sendBatchWithRetry outcomes attempt = (Except.error name, [])) ∧
    (outcomes attempt = SendOutcome.err name → MAX_RETRIES ≤ attempt →
        sendBatchWithRetry outcomes attempt = (Except.error name, [])) ∧
    (outcomes attempt = SendOutcome.err "ThrottlingException" → attempt < MAX_RETRIES →
        sendBatchWithRetry outcomes attempt
          = ((sendBatchWithRetry outcomes (attempt + 1)).1,
              RETRY_DELAY_MS * 2 ^ attempt :: (sendBatchWithRetry outcomes (attempt + 1)).2)) := by
  refine ⟨?_, ?_, ?_, ?_⟩
  · intro h
    rw [sendBatchWithRetry, h]
  · intro h hn
    rw [sendBatchWithRetry, h]
    dsimp only
    rw [dif_neg]
    intro hc
    exact hn hc.1
  · intro h hb
    rw [sendBatchWithRetry, h]
    dsimp only
    rw [dif_neg]
    intro hc
    exact absurd hc.2 (Nat.not_lt.mpr hb)
  · intro h hlt
    rw [sendBatchWithRetry, h]
    dsimp only
    rw [dif_pos (And.intro rfl hlt)]

/-- Witness for C7: a throttle at attempt 0 sleeps the base delay and
retries, and a non-throttling error propagates at once with no sleep. -/
theorem c7_retry_only_throttling_witness :
    (allThrottled 0 = SendOutcome.err "ThrottlingException" ∧ 0 < MAX_RETRIES ∧
      sendBatchWithRetry allThrottled 0
        = ((sendBatchWithRetry allThrottled 1).1,
            RETRY_DELAY_MS * 2 ^ 0 :: (sendBatchWithRetry allThrottled 1).2)) ∧
    (alwaysDenied 0 = SendOutcome.err "AccessDenied" ∧
      "AccessDenied" ≠ "ThrottlingException" ∧
      sendBatchWithRetry alwaysDenied 0 = (Except.error "AccessDenied", [])) :=
  ⟨⟨rfl, by decide,
      (c7_retry_only_throttling allThrottled 0 "ThrottlingException" ⟨[], []⟩).2.2.2
        rfl (by decide)⟩,
    ⟨rfl, by decide,
      (c7_retry_only_throttling alwaysDenied 0 "AccessDenied" ⟨[], []⟩).2.1
        rfl (by decide)⟩⟩

/-- Evaluation of the retry wrapper when every attempt throttles. -/
theorem sendBatchWithRetry_allThrottled :
    sendBatchWithRetry allThrottled 0
      = (Except.error "ThrottlingException", [1000, 2000, 4000]) := by
  rw [sendBatchWithRetry]
  rw [sendBatchWithRetry]
  rw [sendBatchWithRetry]
  rw [sendBatchWithRetry]
  simp [allThrottled, MAX_RETRIES, RETRY_DELAY_MS]

/-- C2 counterexample: with base delay 1000 the three sleeps of a fully
throttled submission total 1000 * (1 + 2 + 4) = 7000 ms, not the
1000 * (2 + 4 + 8) = 14000 ms the claim states. -/
theorem c2_total_delay_counterexample :
    (sendBatchWithRetry allThrottled 0).2.sum = 7000 ∧
      (sendBatchWithRetry allThrottled 0).2.sum ≠ 1000 * (2 + 4 + 8) := by
  rw [sendBatchWithRetry_allThrottled]
  exact ⟨by decide, by decide⟩

/-- C2 as amended: a submission throttled on every attempt is retried 3
times and then surfaces the throttling error, and the total sleep delay is
base * (1 + 2 + 4) with base = RETRY_DELAY_MS = 1000 ms. -/
theorem c2_throttled_backoff_bound :
    sendBatchWithRetry allThrottled 0
      = (Except.error "ThrottlingException", [1000, 2000, 4000]) ∧
    (sendBatchWithRetry allThrottled 0).2.length = MAX_RETRIES ∧
    (sendBatchWithRetry allThrottled 0).2.sum = RETRY_DELAY_MS * (1 + 2 + 4) := by
  refine ⟨sendBatchWithRetry_allThrottled, ?_, ?_⟩ <;>
    rw [sendBatchWithRetry_allThrottled] <;> decide



/-- C9: processBatch reports all-or-nothing counts on a non-empty batch:
either every record counts as a success with no errors, or every record
counts as an error with a non-empty error list. -/
theorem c9_all_or_nothing (sendOk : DdbItem → Bool) (sqsError : String) (now failNow : Int)
    (st records : List DdbItem) (h : records ≠ []) :
    ((processBatch sendOk sqsError now failNow st records).2.2.successCount = records.length ∧
      (processBatch sendOk sqsError now failNow st records).2.2.errorCount = 0 ∧
      (processBatch sendOk sqsError now failNow st records).2.2.errors = []) ∨
    ((processBatch sendOk sqsError now failNow st records).2.2.successCount = 0 ∧
      (processBatch sendOk sqsError now failNow st records).2.2.errorCount = records.length ∧
      (processBatch sendOk sqsError now failNow st records).2.2.errors ≠ []) := by
  have hne : records.isEmpty = false := by
    cases records with
    | nil => exact absurd rfl h
    | cons a l => rfl
  by_cases hall : records.all sendOk = true
  · left
    simp [processBatch, hne, sendRecordsToSQS, hall]
  · right
    simp [processBatch, hne, sendRecordsToSQS, hall]

/-- Witness for C9 at a concrete single-record batch and a succeeding
queue. -/
theorem c9_all_or_nothing_witness :
    ([sampleItem] ≠ ([] : List DdbItem)) ∧
    ((((processBatch (fun _ => true) "boom" 5 7 [sampleItem] [sampleItem]).2.2.successCount
          = [sampleItem].length ∧
        (processBatch (fun _ => true) "boom" 5 7 [sampleItem] [sampleItem]).2.2.errorCount = 0 ∧
        (processBatch (fun _ => true) "boom" 5 7 [sampleItem] [sampleItem]).2.2.errors = []) ∨
      ((processBatch (fun _ => true) "boom" 5 7 [sampleItem] [sampleItem]).2.2.successCount = 0 ∧
        (processBatch (fun _ => true) "boom" 5 7 [sampleItem] [sampleItem]).2.2.errorCount
          = [sampleItem].length ∧
        (processBatch (fun _ => true) "boom" 5 7 [sampleItem] [sampleItem]).2.2.errors ≠ []))) :=
  ⟨by simp, c9_all_or_nothing (fun _ => true) "boom" 5 7 [sampleItem] [sampleItem] (by simp)⟩

/-- C1 evaluated at the failing input: for a batch holding one record that
another worker already claimed (metering_pending is processing), the
conditional claim fails and leaves the store unchanged, yet processBatch
still enqueues the record onto the delivery queue, so the record is
delivered to the Reporter a second time. -/
theorem c1_failed_claim_still_enqueued :
    claimSucceeds stuckItem = false ∧
    markRecordsAsProcessing 50 [stuckItem] [stuckItem] = [stuckItem] ∧
    (processBatch (fun _ => true) "" 50 60 [stuckItem] [stuckItem]).2.1
      = [toQueueMessage 50 stuckItem] ∧
    (processBatch (fun _ => true) "" 50 60 [stuckItem] [stuckItem]).1 = [stuckItem] := by
  refine ⟨rfl, by decide, by decide, by decide⟩

/-- C6 counterexample: when enqueueing a claimed single-record batch
fails, the rollback resets metering_pending to true but leaves the
processing_started claim stamp in place (here the claim time 5), so the
claim fields are not cleared as the claim states. -/
theorem c6_claim_fields_not_cleared :
    (processBatch (fun _ => false) "boom" 5 7 [sampleItem] [sampleItem]).1
      = [{ sampleItem with
            metering_pending := "true"
            status := some "failed"
            error_message := some "Failed to process batch: boom"
            last_failed := some 7
            processing_started := some 5
            retry_count := 1 }] ∧
    ((processBatch (fun _ => false) "boom" 5 7 [sampleItem] [sampleItem]).1.all
        (fun it => it.processing_started.isNone)) = false := by
  refine ⟨by decide, by decide⟩

/-- C6 as amended: when enqueueing fails, every batch record (keys
pairwise distinct) that was pending in the store ends with
metering_pending reset to true, status failed and retry_count incremented,
processBatch returns normally with pure error counts instead of throwing,
but the processing_started stamp written by the claim is left in place
rather than cleared. -/
theorem c6_enqueue_failure_rollback
    (sendOk : DdbItem → Bool) (sqsError : String) (now failNow : Int)
    (st records : List DdbItem) (it r : DdbItem)
    (hnd : (records.map (fun x => (x.customerIdentifier, x.create_timestamp))).Nodup)
    (hfail : records.all sendOk = false)
    (hit : it ∈ st) (hr : r ∈ records)
    (hkey : it.customerIdentifier = r.customerIdentifier ∧
        it.create_timestamp = r.create_timestamp)
    (hpend : it.metering_pending = "true") :
    (processBatch sendOk sqsError now failNow st records).2.2.successCount = 0 ∧
    (processBatch sendOk sqsError now failNow st records).2.2.errorCount = records.length ∧
    ∃ it2 ∈ (processBatch sendOk sqsError now failNow st records).1,
      it2.customerIdentifier = it.customerIdentifier ∧
      it2.create_timestamp = it.create_timestamp ∧
      it2.metering_pending = "true" ∧
      it2.status = some "failed" ∧
      it2.retry_count = it.retry_count + 1 ∧
      it2.processing_started = some now := by
  have hnonnil : records ≠ [] := List.ne_nil_of_mem hr
  have hne : records.isEmpty = false := by
    cases records with
    | nil => exact absurd rfl hnonnil
    | cons a l => rfl
  have hfail2 : records.all sendOk ≠ true := by
    rw [hfail]
    exact Bool.false_ne_true
  have hmain : processBatch sendOk sqsError now failNow st records
      = (markRecordsAsFailed ("Failed to process batch: " ++ sqsError) failNow records
            (markRecordsAsProcessing now records st),
          (records.filter sendOk).map (toQueueMessage now),
          ⟨0, records.length, ["Failed to process batch: " ++ sqsError]⟩) := by
    simp [processBatch, hne, sendRecordsToSQS, hfail2]
  refine ⟨by rw [hmain], by rw [hmain], ?_⟩
  rw [hmain]
  have h1 : markRecordsAsProcessing now records st
      = st.map (fun b => records.foldl
          (fun x a =>
            if x.customerIdentifier = a.customerIdentifier ∧
                x.create_timestamp = a.create_timestamp then markProcessingItem now x else x)
          b) :=
    foldl_map_eq_map_foldl _ records st
  have h2 : records.foldl
      (fun x a =>
        if x.customerIdentifier = a.customerIdentifier ∧
            x.create_timestamp = a.create_timestamp then markProcessingItem now x else x)
      it = markProcessingItem now it :=
    (keyed_foldl (markProcessingItem now) (markProcessingItem_key now) records it hnd).1
      ⟨r, hr, hkey⟩
  have h3 : markRecordsAsFailed ("Failed to process batch: " ++ sqsError) failNow records
      (markRecordsAsProcessing now records st)
      = (markRecordsAsProcessing now records st).map (fun b => records.foldl
          (fun x a =>
            if x.customerIdentifier = a.customerIdentifier ∧
                x.create_timestamp = a.create_timestamp then
              markFailedItem ("Failed to process batch: " ++ sqsError) failNow x
            else x)
          b) :=
    foldl_map_eq_map_foldl _ records (markRecordsAsProcessing now records st)
  have hkeyclaim : (markProcessingItem now it).customerIdentifier = r.customerIdentifier ∧
      (markProcessingItem now it).create_timestamp = r.create_timestamp := by
    rw [(markProcessingItem_key now it).1, (markProcessingItem_key now it).2]
    exact hkey
  have h4 : records.foldl
      (fun x a =>
        if x.customerIdentifier = a.customerIdentifier ∧
            x.create_timestamp = a.create_timestamp then
          markFailedItem ("Failed to process batch: " ++ sqsError) failNow x
        else x)
      (markProcessingItem now it)
      = markFailedItem ("Failed to process batch: " ++ sqsError) failNow
          (markProcessingItem now it) :=
    (keyed_foldl (markFailedItem ("Failed to process batch: " ++ sqsError) failNow)
      (markFailedItem_key ("Failed to process batch: " ++ sqsError) failNow) records
      (markProcessingItem now it) hnd).1 ⟨r, hr, hkeyclaim⟩
  have hclaim : markProcessingItem now it
      = { it with metering_pending := "processing", processing_started := some now } :=
    if_pos hpend
  refine ⟨markFailedItem ("Failed to process batch: " ++ sqsError) failNow
    (markProcessingItem now it), ?_, ?_, ?_, ?_, ?_, ?_, ?_⟩
  · rw [h3]
    have hmem1 : markProcessingItem now it ∈ markRecordsAsProcessing now records st := by
      rw [h1, ← h2]
      exact List.mem_map_of_mem _ hit
    rw [← h4]
    exact List.mem_map_of_mem _ hmem1
  · rw [(markFailedItem_key _ _ _).1, (markProcessingItem_key _ _).1]
  · rw [(markFailedItem_key _ _ _).2, (markProcessingItem_key _ _).2]
  · rfl
  · rfl
  · show (markProcessingItem now it).retry_count + 1 = it.retry_count + 1
    rw [hclaim]
  · show (markProcessingItem now it).processing_started = some now
    rw [hclaim]

/-- Witness for C6 at a concrete pending record whose enqueue fails. -/
theorem c6_enqueue_failure_rollback_witness :
    (([sampleItem].map (fun x => (x.customerIdentifier, x.create_timestamp))).Nodup) ∧
    ([sampleItem].all (fun _ => false) = false) ∧
    (sampleItem ∈ [sampleItem]) ∧
    (sampleItem.metering_pending = "true") ∧
    ((processBatch (fun _ => false) "boom" 5 7 [sampleItem] [sampleItem]).2.2.successCount
        = 0 ∧
      (processBatch (fun _ => false) "boom" 5 7 [sampleItem] [sampleItem]).2.2.errorCount
        = [sampleItem].length ∧
      ∃ it2 ∈ (processBatch (fun _ => false) "boom" 5 7 [sampleItem] [sampleItem]).1,
        it2.customerIdentifier = sampleItem.customerIdentifier ∧
        it2.create_timestamp = sampleItem.create_timestamp ∧
        it2.metering_pending = "true" ∧
        it2.status = some "failed" ∧
        it2.retry_count = sampleItem.retry_count + 1 ∧
        it2.processing_started = some 5) :=
  ⟨by decide, rfl, List.mem_cons_self _ _, rfl,
    c6_enqueue_failure_rollback (fun _ => false) "boom" 5 7 [sampleItem] [sampleItem]
      sampleItem sampleItem (by decide) rfl (List.mem_cons_self _ _)
      (List.mem_cons_self _ _) ⟨rfl, rfl⟩ rfl⟩

/-- C5: a record stuck in processing with a claim stamp strictly older
than the 30 minute cutoff at sweep time is reset by the Reclaimer:
metering_pending returns to true, status becomes timeout_reset and the
claim stamp is removed; and a failing sweep query is swallowed, leaving
the store unchanged and letting the Scanner run proceed. -/
theorem c5_reclaimer_reset (now : Int) (st : List DdbItem) (it : DdbItem) (t : Int)
    (hnd : (st.map (fun x => (x.customerIdentifier, x.create_timestamp))).Nodup)
    (hit : it ∈ st)
    (hproc : it.metering_pending = "processing")
    (hts : it.processing_started = some t)
    (hold : t < now - PROCESSING_TIMEOUT) :
    cleanupStuckProcessingRecords false now st = st ∧
    ∃ it2 ∈ cleanupStuckProcessingRecords true now st,
      it2.customerIdentifier = it.customerIdentifier ∧
      it2.create_timestamp = it.create_timestamp ∧
      it2.metering_pending = "true" ∧
      it2.status = some "timeout_reset" ∧
      it2.processing_started = none := by
  refine ⟨rfl, ?_⟩
  have hstuck : isStuck now it = true := by
    unfold isStuck
    rw [hproc, hts]
    simp [hold]
  have hmemL : it ∈ st.filter (isStuck now) := List.mem_filter.mpr ⟨hit, hstuck⟩
  have hndL : ((st.filter (isStuck now)).map
      (fun x => (x.customerIdentifier, x.create_timestamp))).Nodup :=
    hnd.sublist (List.Sublist.map _ (List.filter_sublist st))
  have hc : cleanupStuckProcessingRecords true now st
      = st.map (fun b => (st.filter (isStuck now)).foldl
          (fun x a =>
            if x.customerIdentifier = a.customerIdentifier ∧
                x.create_timestamp = a.create_timestamp then resetStuckItem x else x)
          b) := by
    show (st.filter (isStuck now)).foldl
      (fun s r => updateByKey r.customerIdentifier r.create_timestamp resetStuckItem s) st = _
    exact foldl_map_eq_map_foldl _ _ st
  have hper : (st.filter (isStuck now)).foldl
      (fun x a =>
        if x.customerIdentifier = a.customerIdentifier ∧
            x.create_timestamp = a.create_timestamp then resetStuckItem x else x)
      it = resetStuckItem it :=
    (keyed_foldl resetStuckItem (fun x => resetStuckItem_key x)
      (st.filter (isStuck now)) it hndL).1 ⟨it, hmemL, rfl, rfl⟩
  refine ⟨resetStuckItem it, ?_, rfl, rfl, rfl, rfl, rfl⟩
  rw [hc, ← hper]
  exact List.mem_map_of_mem _ hit

/-- Witness for C5 at a concrete stuck record, one millisecond past the
cutoff. -/
theorem c5_reclaimer_reset_witness :
    (([stuckItem].map (fun x => (x.customerIdentifier, x.create_timestamp))).Nodup) ∧
    (stuckItem ∈ [stuckItem]) ∧
    (stuckItem.metering_pending = "processing") ∧
    (stuckItem.processing_started = some 0) ∧
    ((0 : Int) < (PROCESSING_TIMEOUT + 1) - PROCESSING_TIMEOUT) ∧
    (cleanupStuckProcessingRecords false (PROCESSING_TIMEOUT + 1) [stuckItem] = [stuckItem] ∧
      ∃ it2 ∈ cleanupStuckProcessingRecords true (PROCESSING_TIMEOUT + 1) [stuckItem],
        it2.customerIdentifier = stuckItem.customerIdentifier ∧
        it2.create_timestamp = stuckItem.create_timestamp ∧
        it2.metering_pending = "true" ∧
        it2.status = some "timeout_reset" ∧
        it2.processing_started = none) :=
  ⟨by decide, List.mem_cons_self _ _, rfl, rfl, by decide,
    c5_reclaimer_reset (PROCESSING_TIMEOUT + 1) [stuckItem] stuckItem 0 (by decide)
      (List.mem_cons_self _ _) rfl rfl (by decide)⟩

/-- The batches the Reporter submits to the marketplace flatten to exactly
the usages of the messages that pass validation, in order: records that
fail validation are excluded and every valid record is submitted. -/
theorem reporter_submitted_eq (billing : List Usage → BatchMeterUsageResponse) (now : Int)
    (st : List DdbItem) (msgs : List MeteringMessageBody) :
    (reporterHandler billing now st msgs).submitted.flatten
      = (msgs.filter (fun x => validatePasses x)).map toUsage := by
  by_cases hemp : (enrichMessages msgs).isEmpty = true
  · have h1 := enrich_isEmpty msgs hemp
    have hsub : (reporterHandler billing now st msgs).submitted = [] := by
      simp only [reporterHandler, hemp, if_true]
    rw [hsub, h1]
    rfl
  · have hsub : (reporterHandler billing now st msgs).submitted
        = (chunk (enrichMessages msgs) MAX_BATCH).map (fun g => g.map EnrichedUsage.usage) := by
      simp only [reporterHandler, hemp, Bool.false_eq_true, if_false]
    rw [hsub, map_flatten_eq, chunk_flatten MAX_BATCH (by decide), enrich_usages]

/-- C3: a queue message whose parsed record fails validation (missing
customerIdentifier, timestamp or dimension, or a non-positive quantity) is
never part of any batch submitted to the billing API while every valid
record of the batch still is, and the phase-2 store pass of the handler
marks the failed record as failed with its retry_count increased before
any billing call. -/
theorem c3_validation_failure_isolated
    (billing : List Usage → BatchMeterUsageResponse) (now : Int)
    (st : List DdbItem) (msgs : List MeteringMessageBody)
    (m : MeteringMessageBody) (e : String)
    (hm : m ∈ msgs) (he : validateMeteringRecord m = Except.error e) :
    ((reporterHandler billing now st msgs).submitted.flatten
        = (msgs.filter (fun x => validatePasses x)).map toUsage) ∧
    (∀ it ∈ st,
        it.customerIdentifier = m.originalRecord.customerIdentifier →
        it.create_timestamp = m.originalRecord.create_timestamp →
        ∃ it2 ∈ markPreValidationFailures now msgs st,
          it2.customerIdentifier = it.customerIdentifier ∧
          it2.create_timestamp = it.create_timestamp ∧
          it2.status = some "failed" ∧
          it.retry_count + 1 ≤ it2.retry_count) := by
  constructor
  · exact reporter_submitted_eq billing now st msgs
  · intro it hit h1 h2
    have hpair : (m, e) ∈ preValidationFailures msgs := by
      unfold preValidationFailures
      refine List.mem_filterMap.mpr ⟨m, hm, ?_⟩
      rw [he]
    have hm2 : markPreValidationFailures now msgs st
        = st.map (fun b => (preValidationFailures msgs).foldl (failStep now) b) := by
      unfold markPreValidationFailures updateDdbFailure updateByKey failStep
      exact foldl_map_eq_map_foldl _ _ st
    obtain ⟨k1, k2, _, _, hhit⟩ := failFold_props now (preValidationFailures msgs) it
    obtain ⟨hs, hrge⟩ := hhit ⟨(m, e), hpair, h1, h2⟩
    refine ⟨(preValidationFailures msgs).foldl (failStep now) it, ?_, k1, k2, hs, hrge⟩
    rw [hm2]
    exact List.mem_map_of_mem _ hit



/-- Witness for C3: a two-message batch where the first message lacks its
dimension, against a billing API that accepts everything. -/
theorem c3_validation_failure_isolated_witness :
    (badMsg ∈ [badMsg, goodMsg]) ∧
    (validateMeteringRecord badMsg = Except.error "dimension is required") ∧
    (((reporterHandler (fun _ => ⟨[], []⟩) 9 [sampleItem] [badMsg, goodMsg]).submitted.flatten
        = ([badMsg, goodMsg].filter (fun x => validatePasses x)).map toUsage) ∧
      (∀ it ∈ [sampleItem],
          it.customerIdentifier = badMsg.originalRecord.customerIdentifier →
          it.create_timestamp = badMsg.originalRecord.create_timestamp →
          ∃ it2 ∈ markPreValidationFailures 9 [badMsg, goodMsg] [sampleItem],
            it2.customerIdentifier = it.customerIdentifier ∧
            it2.create_timestamp = it.create_timestamp ∧
            it2.status = some "failed" ∧
            it.retry_count + 1 ≤ it2.retry_count)) :=
  ⟨List.mem_cons_self _ _, rfl,
    c3_validation_failure_isolated (fun _ => ⟨[], []⟩) 9 [sampleItem] [badMsg, goodMsg]
      badMsg "dimension is required" (List.mem_cons_self _ _) rfl⟩
